import Mathlib

/-!
Verification of the numerical-analysis core of the repository: the root
finders in rootsOfNonLinear.py (bisection, secant, simple iteration) and
newton_Raphson.py, the interpolation routines in
interpolation/mainInterpolation.py, and the least-squares curve fitter in
curveFitting.py.

The Python floats are modelled by exact rationals (ℚ); the claims under
study are either stated "exactly in exact/rational arithmetic" or concern
control flow and error propagation, which are unaffected by the number
representation. Caller-supplied Python callables that may raise are
modelled as functions into Except PyErr; pure numeric callables as ℚ → ℚ.
Python loops with an iteration cap are modelled by structural recursion on
the remaining iteration budget (fuel), which equals max_iter at entry.
-/

set_option maxRecDepth 8000
set_option synthInstance.maxSize 2000

/- Batteries marks the arithmetic on Rat irreducible, which blocks kernel
evaluation of concrete decidable facts about programs over ℚ; restore the
default reducibility so that such facts can be settled by decide. -/
set_option allowUnsafeReducibility true in
attribute [semireducible] Rat.add Rat.mul Rat.sub Rat.div Rat.inv Rat.neg Rat.blt

/-- A Python exception, by kind, carrying str(e). The kinds that the code
under study raises or catches are listed; `otherError` stands for every
remaining exception class (TypeError is separate because simple_iteration
documents it). -/
inductive PyErr where
  | valueError : String → PyErr
  | typeError : String → PyErr
  | zeroDivisionError : String → PyErr
  | otherError : String → PyErr
deriving DecidableEq

/-- The message str(e) carried by an exception. -/
def PyErr.msg : PyErr → String
  | .valueError m => m
  | .typeError m => m
  | .zeroDivisionError m => m
  | .otherError m => m

deriving instance DecidableEq for Except

namespace InterpolationMethods

/-- interpolation/mainInterpolation.py, lagrange_interpolation: for each i
the term starts at y_i and is multiplied by (x - x_j)/(x_i - x_j) over all
j ≠ j, then the terms are summed. The n sample points are (xs k, ys k) for
k < n. No input validation is performed by the source. Division by zero
(duplicate abscissae) follows the ℚ convention q/0 = 0 in this model; the
source returns inf/nan for numpy floats. -/
def lagrange_interpolation (xs ys : ℕ → ℚ) (n : ℕ) (x : ℚ) : ℚ :=
  ∑ i in Finset.range n, ys i * ∏ j in (Finset.range n).erase i, (x - xs j) / (xs i - xs j)

/-- interpolation/mainInterpolation.py, newton_divided_difference: the
divided-difference table coef, an n×n numpy array. Column 0 holds the y
values (rows i < n); for j ≥ 1 the source fills coef[i][j] for i + j < n
with (coef[i+1][j-1] - coef[i][j-1]) / (x_(i+j) - x_i); every entry not
written stays at np.zeros' 0. -/
def coef (xs ys : ℕ → ℚ) (n : ℕ) : ℕ → ℕ → ℚ
  | i, 0 => if i < n then ys i else 0
  | i, j + 1 =>
    if i + j + 1 < n then
      (coef xs ys n (i + 1) j - coef xs ys n i j) / (xs (i + j + 1) - xs i)
    else 0

/-- interpolation/mainInterpolation.py, newton_divided_difference: returns
the pair (result, coef): result = coef[0][0] + Σ_(j≥1) coef[0][j] · Π_(m<j)
(x - x_m), accumulated with a running product, together with the table. -/
def newton_divided_difference (xs ys : ℕ → ℚ) (n : ℕ) (x : ℚ) :
    ℚ × (ℕ → ℕ → ℚ) :=
  (∑ j in Finset.range n, coef xs ys n 0 j * ∏ m in Finset.range j, (x - xs m),
   coef xs ys n)

end InterpolationMethods

namespace NumericalMethods

/-- One bisection/secant iteration record (iteration, a, b, c, f(c)) resp.
(iteration, x0, x1, x_next, f(x1)). -/
abbrev Rec5 := ℕ × ℚ × ℚ × ℚ × ℚ

/-- One simple-iteration record (iteration, x_current, x_next). -/
abbrev Rec3 := ℕ × ℚ × ℚ

/-- rootsOfNonLinear.py: the ValueError message for max_iter <= 0. -/
def maxIterMsg : String := "max_iter must be positive"

/-- rootsOfNonLinear.py: the ValueError message for tolerance <= 0. -/
def toleranceMsg : String := "tolerance must be positive"

/-- rootsOfNonLinear.py, bisection: the ValueError message for a >= b. -/
def bracketOrderMsg : String := "Left endpoint must be less than right endpoint"

/-- rootsOfNonLinear.py, bisection: the ValueError message for fa*fb >= 0. -/
def signMsg : String := "Function must have opposite signs at interval endpoints"

/-- rootsOfNonLinear.py, bisection: the ValueError message on iteration
exhaustion, reporting the last bracket. -/
def bisectionFailMsg (maxIter : ℤ) (a b : ℚ) : String :=
  "Failed to converge within " ++ toString maxIter ++ " iterations. Current interval: ["
    ++ toString a ++ ", " ++ toString b ++ "]"

/-- rootsOfNonLinear.py, bisection, loop body. State: 0-based loop index i,
current bracket a, b, f(a) (the source also keeps f(b), which it never
reads), the records so far. Fuel is the remaining range(max_iter) budget;
running out models falling off the loop, which raises. -/
def bisectLoop (f : ℚ → ℚ) (tol : ℚ) (fd : ℕ) (maxIter : ℤ) :
    ℕ → ℕ → ℚ → ℚ → ℚ → List Rec5 → Except PyErr (List Rec5)
  | 0, _, a, b, _, _ => .error (.valueError (bisectionFailMsg maxIter a b))
  | fuel + 1, i, a, b, fa, acc =>
    let c := (a + b) / 2
    let fc := f c
    let acc2 := acc ++ [(i + 1, a, b, c, fc)]
    if |fc| < tol ∨ |b - a| < 1 / 10 ^ fd then .ok acc2
    else if fa * fc < 0 then bisectLoop f tol fd maxIter fuel (i + 1) a c fa acc2
    else bisectLoop f tol fd maxIter fuel (i + 1) c b fc acc2

/-- rootsOfNonLinear.py, NumericalMethods.bisection. Validation in source
order (the callable check cannot fail in this model), then the loop.
fixed_digits is ℕ (the GUI offers 1..15); the threshold 10^(-fixed_digits)
is 1/10^fd. -/
def bisection (f : ℚ → ℚ) (a b : ℚ) (tol : ℚ) (maxIter : ℤ) (fd : ℕ) :
    Except PyErr (List Rec5) :=
  if maxIter ≤ 0 then .error (.valueError (maxIterMsg))
  else if tol ≤ 0 then .error (.valueError (toleranceMsg))
  else if b ≤ a then .error (.valueError (bracketOrderMsg))
  else if 0 ≤ f a * f b then .error (.valueError (signMsg))
  else bisectLoop f tol fd maxIter maxIter.toNat 0 a b (f a) []

/-- rootsOfNonLinear.py, secant: the ValueError message for
|x1 - x0| < tolerance. -/
def guessesMsg : String := "Initial guesses must be different"

/-- rootsOfNonLinear.py, secant: the ValueError message when the secant
denominator magnitude drops below 1e-10 at (1-based) iteration i. -/
def denomMsg (i : ℕ) : String :=
  "Denominator too close to zero at iteration " ++ toString i ++ ". Method fails."

/-- rootsOfNonLinear.py, secant: the ValueError message when |x_next| > 1e6
at (1-based) iteration i. -/
def secantDivergeMsg (i : ℕ) : String :=
  "Solution diverging at iteration " ++ toString i ++ ". Try different initial values."

/-- rootsOfNonLinear.py, secant: the ValueError message on iteration
exhaustion. -/
def secantFailMsg (maxIter : ℤ) (x1 : ℚ) : String :=
  "Failed to converge within " ++ toString maxIter ++ " iterations. Last value: x = "
    ++ toString x1

/-- rootsOfNonLinear.py, secant, loop body. Each pass evaluates f at both
current guesses, raises if the denominator is within 1e-10 of zero (before
appending the step record), computes x_next, records, then tests the two
convergence conditions, then the divergence bound, then shifts. -/
def secantLoop (f : ℚ → ℚ) (tol : ℚ) (fd : ℕ) (maxIter : ℤ) :
    ℕ → ℕ → ℚ → ℚ → List Rec5 → Except PyErr (List Rec5)
  | 0, _, _, x1, _ => .error (.valueError (secantFailMsg maxIter x1))
  | fuel + 1, i, x0, x1, acc =>
    let fx0 := f x0
    let fx1 := f x1
    if |fx1 - fx0| < 1 / 10 ^ 10 then .error (.valueError (denomMsg (i + 1)))
    else
      let xn := x1 - fx1 * (x1 - x0) / (fx1 - fx0)
      let acc2 := acc ++ [(i + 1, x0, x1, xn, fx1)]
      if |fx1| < tol then .ok acc2
      else if |xn - x1| < 1 / 10 ^ fd then .ok acc2
      else if 10 ^ 6 < |xn| then .error (.valueError (secantDivergeMsg (i + 1)))
      else secantLoop f tol fd maxIter fuel (i + 1) x1 xn acc2

/-- rootsOfNonLinear.py, NumericalMethods.secant: validation in source
order, then the loop. -/
def secant (f : ℚ → ℚ) (x0 x1 : ℚ) (tol : ℚ) (maxIter : ℤ) (fd : ℕ) :
    Except PyErr (List Rec5) :=
  if maxIter ≤ 0 then .error (.valueError (maxIterMsg))
  else if tol ≤ 0 then .error (.valueError (toleranceMsg))
  else if |x1 - x0| < tol then .error (.valueError (guessesMsg))
  else secantLoop f tol fd maxIter maxIter.toNat 0 x0 x1 []

/-- rootsOfNonLinear.py, simple_iteration: the ValueError that wraps a
ValueError or ZeroDivisionError raised by the iteration function at x. -/
def iterFuncMsg (x : ℚ) (cause : String) : String :=
  "Error in iteration function at x = " ++ toString x ++ ": " ++ cause

/-- rootsOfNonLinear.py, simple_iteration: only these exception classes
are caught by the except clause around func(x); every other class
propagates unchanged out of the solver. -/
def caughtBySimpleIteration : PyErr → Bool
  | .valueError _ => true
  | .zeroDivisionError _ => true
  | _ => false

/-- rootsOfNonLinear.py, simple_iteration: the ValueError message when
|x_next| > 1e6 at (1-based) iteration i. -/
def simpleDivergeMsg (i : ℕ) (x xn : ℚ) : String :=
  "Solution diverging at iteration " ++ toString i ++ ". Last values: x = "
    ++ toString x ++ ", x_next = " ++ toString xn
    ++ ". Try different initial guess or iteration function."

/-- rootsOfNonLinear.py, simple_iteration: the ValueError message of the
oscillation stop at (1-based) iteration i. -/
def oscillateMsg (i : ℕ) : String :=
  "Method appears to be oscillating at iteration " ++ toString i
    ++ ". The iteration function might not satisfy convergence conditions."

/-- rootsOfNonLinear.py, simple_iteration: the ValueError message on
iteration exhaustion. -/
def simpleFailMsg (maxIter : ℤ) (x xn : ℚ) : String :=
  "Failed to converge within " ++ toString maxIter ++ " iterations. Last values: x = "
    ++ toString x ++ ", x_next = " ++ toString xn

/-- The number of distinct x-values (second tuple component) among the last
four records, as computed by len(set(result[1] for result in results[-4:])). -/
def distinctLastFour (acc : List Rec3) : ℕ :=
  ((acc.reverse.take 4).map (fun r => r.2.1)).dedup.length

/-- rootsOfNonLinear.py, simple_iteration, loop body. Each pass evaluates
the iteration function (wrapping only ValueError/ZeroDivisionError),
appends the record, tests convergence (absolute, then relative error),
then divergence, then oscillation (which requires 0-based index i > 4),
then shifts. On fuel exhaustion the failure message shows the current x
twice: at the raise the source has already reassigned x to x_next, so its
two placeholders display the same value. -/
def simpleLoop (g : ℚ → Except PyErr ℚ) (tol : ℚ) (fd : ℕ) (maxIter : ℤ) :
    ℕ → ℕ → ℚ → List Rec3 → Except PyErr (List Rec3)
  | 0, _, x, _ => .error (.valueError (simpleFailMsg maxIter x x))
  | fuel + 1, i, x, acc =>
    match g x with
    | .error e =>
      if caughtBySimpleIteration e then .error (.valueError (iterFuncMsg x (e.msg)))
      else .error e
    | .ok xn =>
      let acc2 := acc ++ [(i + 1, x, xn)]
      let absError := |xn - x|
      let relError := absError / (|xn| + 1 / 10 ^ 10)
      if absError < tol ∨ relError < 1 / 10 ^ fd then .ok acc2
      else if 10 ^ 6 < |xn| then .error (.valueError (simpleDivergeMsg (i + 1) x xn))
      else if 4 < i ∧ distinctLastFour acc2 ≤ 2 then
        .error (.valueError (oscillateMsg (i + 1)))
      else simpleLoop g tol fd maxIter fuel (i + 1) xn acc2

/-- rootsOfNonLinear.py, NumericalMethods.simple_iteration: validation in
source order, then the loop from x = float(x0). -/
def simple_iteration (g : ℚ → Except PyErr ℚ) (x0 : ℚ) (tol : ℚ) (maxIter : ℤ)
    (fd : ℕ) : Except PyErr (List Rec3) :=
  if maxIter ≤ 0 then .error (.valueError (maxIterMsg))
  else if tol ≤ 0 then .error (.valueError (toleranceMsg))
  else simpleLoop g tol fd maxIter maxIter.toNat 0 x0 []

end NumericalMethods

namespace NewtonRaphsonSolver

/-- One Newton-Raphson record (iteration, x, f(x), error). -/
abbrev Rec4 := ℕ × ℚ × ℚ × ℚ

/-- newton_Raphson.py, solve: the message of the ValueError raised by the
per-iteration except handler, f-string "Error in iteration i: str(e)". -/
def wrapMsg (i : ℕ) (cause : String) : String :=
  "Error in iteration " ++ toString i ++ ": " ++ cause

/-- newton_Raphson.py, solve: the message of the divergence ValueError
raised (inside the try block) when |x_next| > 1e6. -/
def divergingMsg : String := "Method diverging - try different initial guess"

/-- newton_Raphson.py, solve: the ValueError message on iteration
exhaustion. -/
def nrFailMsg (maxIter : ℤ) : String :=
  "Failed to converge within " ++ toString maxIter ++ " iterations"

/-- np.sign for scalars. -/
def sign (q : ℚ) : ℚ := if 0 < q then 1 else if q < 0 then -1 else 0

/-- newton_Raphson.py, NewtonRaphsonSolver.solve, loop body. Everything in
the loop sits inside try/except Exception, so an evaluator exception of
any kind, and equally the divergence ValueError raised inside the try, is
re-raised as ValueError with the wrapped per-iteration message. The
near-zero derivative is nudged by a signed 1e-10 unless |f(x)| is already
below tolerance (recorded as convergence with error 0.0). -/
def solveLoop (f fp : ℚ → Except PyErr ℚ) (tol : ℚ) (maxIter : ℤ) :
    ℕ → ℕ → ℚ → List Rec4 → Except PyErr (List Rec4)
  | 0, _, _, _ => .error (.valueError (nrFailMsg maxIter))
  | fuel + 1, i, x, acc =>
    match f x with
    | .error e => .error (.valueError (wrapMsg (i + 1) (e.msg)))
    | .ok fx =>
      match fp x with
      | .error e => .error (.valueError (wrapMsg (i + 1) (e.msg)))
      | .ok dfx0 =>
        if |dfx0| < 1 / 10 ^ 10 ∧ |fx| < tol then .ok (acc ++ [(i + 1, x, fx, 0)])
        else
          let dfx := if |dfx0| < 1 / 10 ^ 10 then
              (if dfx0 ≠ 0 then dfx0 + sign dfx0 * (1 / 10 ^ 10) else 1 / 10 ^ 10)
            else dfx0
          let xn := x - fx / dfx
          let err := |xn - x|
          let acc2 := acc ++ [(i + 1, x, fx, err)]
          if |fx| < tol ∨ err < tol then .ok acc2
          else if 10 ^ 6 < |xn| then .error (.valueError (wrapMsg (i + 1) (divergingMsg)))
          else solveLoop f fp tol maxIter fuel (i + 1) xn acc2

/-- newton_Raphson.py, NewtonRaphsonSolver.solve: no input validation at
all; x = float(x0) and straight into the loop. A max_iter <= 0 therefore
gives range(max_iter) = empty and the exhaustion ValueError. -/
def solve (f fp : ℚ → Except PyErr ℚ) (x0 : ℚ) (tol : ℚ) (maxIter : ℤ) :
    Except PyErr (List Rec4) :=
  solveLoop f fp tol maxIter maxIter.toNat 0 x0 []

end NewtonRaphsonSolver

namespace CurveFittingCalculator

/-- The determinant of a 3×3 matrix given row-wise, used to model
np.linalg.solve on the second-degree normal equations by Cramer's rule. -/
def det3 (a b c d e f g h i : ℚ) : ℚ :=
  a * (e * i - f * h) - b * (d * i - f * g) + c * (d * h - e * g)

/-- curveFitting.py, calculate_first_degree: the sums n, Σx, Σy, Σxy, Σx²
over the data frame rows, then np.linalg.solve on
[[n, Σx], [Σx, Σx²]]·(a0,a1) = (Σy, Σxy), modelled exactly by Cramer's
rule (the unique solution whenever the determinant is nonzero; LAPACK
raises on a singular matrix, where this model would divide by zero). -/
def calculate_first_degree (df : List (ℚ × ℚ)) : ℚ × ℚ :=
  let n : ℚ := df.length
  let sum_x := (df.map Prod.fst).sum
  let sum_y := (df.map Prod.snd).sum
  let sum_xy := (df.map (fun p => p.1 * p.2)).sum
  let sum_x2 := (df.map (fun p => p.1 ^ 2)).sum
  let det := n * sum_x2 - sum_x * sum_x
  ((sum_y * sum_x2 - sum_x * sum_xy) / det, (n * sum_xy - sum_x * sum_y) / det)

/-- curveFitting.py, calculate_second_degree: the sums up to Σx⁴ and Σx²y,
then np.linalg.solve on the 3×3 normal system
[[n,Σx,Σx²],[Σx,Σx²,Σx³],[Σx²,Σx³,Σx⁴]]·(a0,a1,a2) = (Σy,Σxy,Σx²y),
modelled exactly by Cramer's rule. -/
def calculate_second_degree (df : List (ℚ × ℚ)) : ℚ × ℚ × ℚ :=
  let n : ℚ := df.length
  let sum_x := (df.map Prod.fst).sum
  let sum_x2 := (df.map (fun p => p.1 ^ 2)).sum
  let sum_x3 := (df.map (fun p => p.1 ^ 3)).sum
  let sum_x4 := (df.map (fun p => p.1 ^ 4)).sum
  let sum_y := (df.map Prod.snd).sum
  let sum_xy := (df.map (fun p => p.1 * p.2)).sum
  let sum_x2y := (df.map (fun p => p.1 ^ 2 * p.2)).sum
  let d := det3 n sum_x sum_x2 sum_x sum_x2 sum_x3 sum_x2 sum_x3 sum_x4
  (det3 sum_y sum_x sum_x2 sum_xy sum_x2 sum_x3 sum_x2y sum_x3 sum_x4 / d,
   det3 n sum_y sum_x2 sum_x sum_xy sum_x3 sum_x2 sum_x2y sum_x4 / d,
   det3 n sum_x sum_y sum_x sum_x2 sum_xy sum_x2 sum_x3 sum_x2y / d)

end CurveFittingCalculator

/-! ### Interpolation theory

The interpolation claims are settled through the standard polynomial
machinery: the Newton form built from the divided-difference table is the
unique polynomial of degree < n through the n nodes, and so is the
Lagrange form; both therefore evaluate to y_i at x_i and agree everywhere.
-/

namespace InterpolationMethods

open Polynomial

/-- The divided differences free of the table bounds: dd i j is the
divided difference f[x_i, ..., x_(i+j)], satisfying exactly the recurrence
the source uses to fill coef. -/
def dd (xs ys : ℕ → ℚ) : ℕ → ℕ → ℚ
  | i, 0 => ys i
  | i, j + 1 => (dd xs ys (i + 1) j - dd xs ys i j) / (xs (i + j + 1) - xs i)

/-- Inside the triangle the source actually fills, the table agrees with
the unbounded divided differences. -/
theorem coef_eq_dd (xs ys : ℕ → ℚ) (n : ℕ) :
    ∀ j i, i + j < n → coef xs ys n i j = dd xs ys i j := by
  intro j
  induction j with
  | zero =>
    intro i hi
    simp only [coef, dd]
    rw [if_pos (show i < n by omega)]
  | succ j ih =>
    intro i hi
    have h1 : (i + 1) + j < n := by omega
    have h2 : i + j < n := by omega
    simp only [coef, dd]
    rw [if_pos (show i + j + 1 < n by omega), ih (i + 1) h1, ih i h2]

/-- The running product Π_(m<j) (X - x_(s+m)) of the Newton form, with the
nodes taken from offset s. -/
noncomputable def nprod (xs : ℕ → ℚ) (s j : ℕ) : ℚ[X] :=
  ∏ m in Finset.range j, (X - C (xs (s + m)))

/-- The Newton-form polynomial on the k+1 nodes s, ..., s+k. -/
noncomputable def npoly (xs ys : ℕ → ℚ) (s k : ℕ) : ℚ[X] :=
  ∑ j in Finset.range (k + 1), C (dd xs ys s j) * nprod xs s j

theorem nprod_monic (xs : ℕ → ℚ) (s j : ℕ) : (nprod xs s j).Monic :=
  monic_prod_of_monic _ _ fun m _ => monic_X_sub_C (xs (s + m))

theorem nprod_natDegree (xs : ℕ → ℚ) (s j : ℕ) : (nprod xs s j).natDegree = j := by
  rw [nprod, natDegree_prod_of_monic _ _ fun m _ => monic_X_sub_C (xs (s + m))]
  simp [natDegree_X_sub_C]

theorem nprod_eval (xs : ℕ → ℚ) (s j : ℕ) (t : ℚ) :
    (nprod xs s j).eval t = ∏ m in Finset.range j, (t - xs (s + m)) := by
  simp [nprod, eval_prod]

theorem nprod_eval_node (xs : ℕ → ℚ) (s j i : ℕ) (hij : i < j) :
    (nprod xs s j).eval (xs (s + i)) = 0 := by
  rw [nprod_eval]
  exact Finset.prod_eq_zero (Finset.mem_range.mpr hij) (sub_self _)

theorem npoly_natDegree_le (xs ys : ℕ → ℚ) (s k : ℕ) :
    (npoly xs ys s k).natDegree ≤ k := by
  refine natDegree_sum_le_of_forall_le _ _ fun j hj => ?_
  refine le_trans (natDegree_C_mul_le _ _) ?_
  rw [nprod_natDegree]
  exact Nat.lt_succ_iff.mp (Finset.mem_range.mp hj)

theorem npoly_coeff_top (xs ys : ℕ → ℚ) (s k : ℕ) :
    (npoly xs ys s k).coeff k = dd xs ys s k := by
  rw [npoly, finset_sum_coeff]
  rw [Finset.sum_eq_single k]
  · rw [coeff_C_mul]
    have h1 : (nprod xs s k).coeff k = 1 := by
      have := (nprod_monic xs s k).coeff_natDegree
      rwa [nprod_natDegree] at this
    rw [h1, mul_one]
  · intro j hj hjk
    rw [coeff_C_mul]
    have hjlt : j < k := lt_of_le_of_ne (Nat.lt_succ_iff.mp (Finset.mem_range.mp hj)) hjk
    rw [coeff_eq_zero_of_natDegree_lt (by rw [nprod_natDegree]; exact hjlt), mul_zero]
  · intro hk
    exact absurd (Finset.mem_range.mpr (Nat.lt_succ_self k)) hk

theorem npoly_succ (xs ys : ℕ → ℚ) (s k : ℕ) :
    npoly xs ys s (k + 1) =
      npoly xs ys s k + C (dd xs ys s (k + 1)) * nprod xs s (k + 1) := by
  rw [npoly, Finset.sum_range_succ]; rfl

theorem npoly_eval (xs ys : ℕ → ℚ) (s k : ℕ) (t : ℚ) :
    (npoly xs ys s k).eval t =
      ∑ j in Finset.range (k + 1), dd xs ys s j * ∏ m in Finset.range j, (t - xs (s + m)) := by
  rw [npoly, eval_finset_sum]
  exact Finset.sum_congr rfl fun j _ => by rw [eval_mul, eval_C, nprod_eval]

/-- The coefficient of degree k+1 in (X - C c) * p vanishes down to the
degree-k coefficient of p when p has degree at most k. -/
theorem coeff_X_sub_C_mul_of_natDegree_le (c : ℚ) (p : ℚ[X]) (k : ℕ)
    (hp : p.natDegree ≤ k) : ((X - C c) * p).coeff (k + 1) = p.coeff k := by
  rw [sub_mul, coeff_sub, coeff_X_mul, coeff_C_mul,
    coeff_eq_zero_of_natDegree_lt (Nat.lt_succ_of_le hp), mul_zero, sub_zero]

/-- The Newton-form polynomial on the nodes s, ..., s+k interpolates every
one of them. This is the central fact behind both interpolation claims; the
induction step identifies npoly s (k+1) with the Neville-style combination
of the two k-windows through a degree-and-roots argument. -/
theorem npoly_eval_node (xs ys : ℕ → ℚ) :
    ∀ k s, (∀ a b, a ≤ k → b ≤ k → a ≠ b → xs (s + a) ≠ xs (s + b)) →
      ∀ i, i ≤ k → (npoly xs ys s k).eval (xs (s + i)) = ys (s + i) := by
  intro k
  induction k with
  | zero =>
    intro s _ i hi
    have hi0 : i = 0 := Nat.le_zero.mp hi
    subst hi0
    simp [npoly, nprod, dd]
  | succ k ih =>
    intro s hdist i hi
    have hdist0 : ∀ a b, a ≤ k → b ≤ k → a ≠ b → xs (s + a) ≠ xs (s + b) :=
      fun a b ha hb hab => hdist a b (by omega) (by omega) hab
    have hdist1 : ∀ a b, a ≤ k → b ≤ k → a ≠ b → xs (s + 1 + a) ≠ xs (s + 1 + b) := by
      intro a b ha hb hab
      have e1 : s + 1 + a = s + (a + 1) := by omega
      have e2 : s + 1 + b = s + (b + 1) := by omega
      rw [e1, e2]
      exact hdist (a + 1) (b + 1) (by omega) (by omega) (by omega)
    have hΔ : xs (s + (k + 1)) - xs s ≠ 0 := by
      rw [sub_ne_zero]
      have := hdist (k + 1) 0 (le_refl _) (by omega) (by omega)
      simpa using this
    have hlow : ∀ j, j ≤ k → (npoly xs ys s (k + 1)).eval (xs (s + j)) = ys (s + j) := by
      intro j hj
      rw [npoly_succ, eval_add, eval_mul, eval_C,
        nprod_eval_node xs s (k + 1) j (by omega), mul_zero, add_zero]
      exact ih s hdist0 j hj
    rcases Nat.lt_or_ge k i with hik | hik
    · have hieq : i = k + 1 := by omega
      subst hieq
      set B : Polynomial ℚ := C ((xs (s + (k + 1)) - xs s)⁻¹) *
        ((X - C (xs s)) * npoly xs ys (s + 1) k -
         (X - C (xs (s + (k + 1)))) * npoly xs ys s k) with hB
      have hdegB : B.natDegree ≤ k + 1 := by
        refine le_trans (natDegree_C_mul_le _ _) (le_trans (natDegree_sub_le _ _) ?_)
        rw [max_le_iff]
        constructor
        · refine le_trans natDegree_mul_le ?_
          rw [natDegree_X_sub_C]
          have := npoly_natDegree_le xs ys (s + 1) k
          omega
        · refine le_trans natDegree_mul_le ?_
          rw [natDegree_X_sub_C]
          have := npoly_natDegree_le xs ys s k
          omega
      have hcoefB : B.coeff (k + 1) = dd xs ys s (k + 1) := by
        rw [hB, coeff_C_mul, coeff_sub,
          coeff_X_sub_C_mul_of_natDegree_le _ _ k (npoly_natDegree_le xs ys (s + 1) k),
          coeff_X_sub_C_mul_of_natDegree_le _ _ k (npoly_natDegree_le xs ys s k),
          npoly_coeff_top, npoly_coeff_top]
        rw [show dd xs ys s (k + 1) =
          (dd xs ys (s + 1) k - dd xs ys s k) / (xs (s + k + 1) - xs s) from rfl]
        rw [div_eq_mul_inv, mul_comm]
        rfl
      have hND : (npoly xs ys s (k + 1) - B).natDegree ≤ k := by
        rw [natDegree_le_iff_coeff_eq_zero]
        intro N hN
        rcases Nat.lt_or_ge (k + 1) N with hN2 | hN2
        · rw [coeff_sub,
            coeff_eq_zero_of_natDegree_lt (lt_of_le_of_lt (npoly_natDegree_le xs ys s (k + 1)) hN2),
            coeff_eq_zero_of_natDegree_lt (lt_of_le_of_lt hdegB hN2), sub_self]
        · have hNeq : N = k + 1 := by omega
          subst hNeq
          rw [coeff_sub, npoly_coeff_top, hcoefB, sub_self]
      have hroots : ∀ j ∈ Finset.range (k + 1),
          (npoly xs ys s (k + 1) - B).eval (xs (s + j)) = 0 := by
        intro j hj
        have hjk : j ≤ k := Nat.lt_succ_iff.mp (Finset.mem_range.mp hj)
        rw [eval_sub, hlow j hjk, sub_eq_zero, hB]
        simp only [eval_mul, eval_sub, eval_C, eval_X]
        rcases Nat.eq_zero_or_pos j with hj0 | hj0
        · subst hj0
          have h00 : eval (xs (s + 0)) (npoly xs ys s k) = ys (s + 0) :=
            ih s hdist0 0 (by omega)
          simp only [Nat.add_zero] at h00 ⊢
          rw [h00, sub_self, zero_mul, zero_sub]
          field_simp
          ring
        · have e1 : s + 1 + (j - 1) = s + j := by omega
          have hP1 : eval (xs (s + j)) (npoly xs ys (s + 1) k) = ys (s + j) := by
            have := ih (s + 1) hdist1 (j - 1) (by omega)
            rwa [e1] at this
          rw [hP1, ih s hdist0 j hjk]
          field_simp
          ring
      have hD0 : npoly xs ys s (k + 1) - B = 0 := by
        refine Polynomial.eq_zero_of_degree_lt_of_eval_index_eq_zero
          (v := fun j => xs (s + j)) (Finset.range (k + 1)) ?_ ?_ hroots
        · intro a ha b hb hab
          by_contra hne
          have ha2 : a ≤ k + 1 := by
            have := Finset.mem_range.mp (Finset.mem_coe.mp ha); omega
          have hb2 : b ≤ k + 1 := by
            have := Finset.mem_range.mp (Finset.mem_coe.mp hb); omega
          exact hdist a b ha2 hb2 hne hab
        · rw [Finset.card_range]
          refine lt_of_le_of_lt degree_le_natDegree ?_
          exact_mod_cast Nat.lt_succ_of_le hND
      have hBeq : npoly xs ys s (k + 1) = B := sub_eq_zero.mp hD0
      rw [hBeq, hB]
      simp only [eval_mul, eval_sub, eval_C, eval_X]
      have hPk : eval (xs (s + (k + 1))) (npoly xs ys (s + 1) k) = ys (s + (k + 1)) := by
        have := ih (s + 1) hdist1 k (le_refl k)
        have e2 : s + 1 + k = s + (k + 1) := by omega
        rwa [e2] at this
      rw [hPk, sub_self, zero_mul, sub_zero]
      field_simp
    · exact hlow i hik

/-- The value component returned by newton_divided_difference is the
evaluation of the Newton-form polynomial on the n nodes. -/
theorem newton_value_eq_npoly (xs ys : ℕ → ℚ) (n : ℕ) (hn : 1 ≤ n) (t : ℚ) :
    (newton_divided_difference xs ys n t).1 = (npoly xs ys 0 (n - 1)).eval t := by
  obtain ⟨m, rfl⟩ : ∃ m, n = m + 1 := ⟨n - 1, by omega⟩
  have h1 : (newton_divided_difference xs ys (m + 1) t).1 =
      ∑ j in Finset.range (m + 1), coef xs ys (m + 1) 0 j *
        ∏ l in Finset.range j, (t - xs l) := rfl
  rw [h1, npoly_eval]
  simp only [Nat.add_sub_cancel]
  refine Finset.sum_congr rfl fun j hj => ?_
  rw [coef_eq_dd xs ys (m + 1) j 0 (by simpa using Finset.mem_range.mp hj)]
  congr 1
  exact Finset.prod_congr rfl fun l _ => by rw [Nat.zero_add]

/-- Evaluating the Lagrange sum at a node x_i gives y_i: the term i has
every factor equal to 1, and every other term contains the factor
(x_i - x_i)/(x_b - x_i) = 0. -/
theorem lagrange_eval_node (xs ys : ℕ → ℚ) (n : ℕ)
    (hxs : ∀ i < n, ∀ j < n, i ≠ j → xs i ≠ xs j) (i : ℕ) (hi : i < n) :
    lagrange_interpolation xs ys n (xs i) = ys i := by
  rw [lagrange_interpolation, Finset.sum_eq_single i]
  · have hone : ∏ j in (Finset.range n).erase i, (xs i - xs j) / (xs i - xs j) = 1 := by
      refine Finset.prod_eq_one fun j hj => ?_
      have hji : j ≠ i := (Finset.mem_erase.mp hj).1
      have hjn : j < n := Finset.mem_range.mp (Finset.mem_erase.mp hj).2
      exact div_self (sub_ne_zero.mpr (hxs i hi j hjn (Ne.symm hji)))
    rw [hone, mul_one]
  · intro b hb hbi
    have hib : i ∈ (Finset.range n).erase b :=
      Finset.mem_erase.mpr ⟨Ne.symm hbi, Finset.mem_range.mpr hi⟩
    rw [Finset.prod_eq_zero hib (by rw [sub_self, zero_div]), mul_zero]
  · intro hni
    exact absurd (Finset.mem_range.mpr hi) hni

/-- The Lagrange interpolating polynomial exactly as the sum the source
evaluates: term i is y_i times the basis product over j ≠ i. -/
noncomputable def lpoly (xs ys : ℕ → ℚ) (n : ℕ) : Polynomial ℚ :=
  ∑ i in Finset.range n,
    C (ys i * ∏ j in (Finset.range n).erase i, (xs i - xs j)⁻¹) *
      ∏ j in (Finset.range n).erase i, (X - C (xs j))

theorem lpoly_eval (xs ys : ℕ → ℚ) (n : ℕ) (t : ℚ) :
    (lpoly xs ys n).eval t = lagrange_interpolation xs ys n t := by
  rw [lpoly, lagrange_interpolation, eval_finset_sum]
  refine Finset.sum_congr rfl fun i _ => ?_
  rw [eval_mul, eval_C, eval_prod]
  simp only [eval_sub, eval_X, eval_C, div_eq_mul_inv]
  rw [Finset.prod_mul_distrib]
  ring

theorem lpoly_natDegree_le (xs ys : ℕ → ℚ) (n : ℕ) :
    (lpoly xs ys n).natDegree ≤ n - 1 := by
  refine natDegree_sum_le_of_forall_le _ _ fun i hi => ?_
  refine le_trans (natDegree_C_mul_le _ _) ?_
  rw [natDegree_prod_of_monic _ _ fun j _ => monic_X_sub_C (xs j)]
  simp only [natDegree_X_sub_C]
  rw [Finset.sum_const, smul_eq_mul, mul_one, Finset.card_erase_of_mem hi,
    Finset.card_range]

/-- Uniqueness of the interpolating polynomial: the Lagrange and Newton
forms on the same n distinct nodes coincide as polynomials. -/
theorem lpoly_eq_npoly (xs ys : ℕ → ℚ) (n : ℕ) (hn : 1 ≤ n)
    (hxs : ∀ i < n, ∀ j < n, i ≠ j → xs i ≠ xs j) :
    lpoly xs ys n = npoly xs ys 0 (n - 1) := by
  have hdist0 : ∀ a b, a ≤ n - 1 → b ≤ n - 1 → a ≠ b → xs (0 + a) ≠ xs (0 + b) := by
    intro a b ha hb hab
    rw [Nat.zero_add, Nat.zero_add]
    exact hxs a (by omega) b (by omega) hab
  refine Polynomial.eq_of_degrees_lt_of_eval_index_eq (v := xs) (Finset.range n) ?_ ?_ ?_ ?_
  · intro a ha b hb hab
    by_contra hne
    exact hxs a (Finset.mem_range.mp (Finset.mem_coe.mp ha))
      b (Finset.mem_range.mp (Finset.mem_coe.mp hb)) hne hab
  · rw [Finset.card_range]
    refine lt_of_le_of_lt degree_le_natDegree ?_
    exact_mod_cast lt_of_le_of_lt (lpoly_natDegree_le xs ys n) (by omega)
  · rw [Finset.card_range]
    refine lt_of_le_of_lt degree_le_natDegree ?_
    exact_mod_cast lt_of_le_of_lt (npoly_natDegree_le xs ys 0 (n - 1)) (by omega)
  · intro i hin
    have hi : i < n := Finset.mem_range.mp hin
    rw [lpoly_eval, lagrange_eval_node xs ys n hxs i hi]
    have := npoly_eval_node xs ys (n - 1) 0 hdist0 i (by omega)
    rw [Nat.zero_add] at this
    exact this.symm

end InterpolationMethods

/-! ### Claim theorems -/

/-- C1: for every sample set of n >= 2 points with pairwise distinct
x-values and every index i < n, both lagrange_interpolation and the value
returned by newton_divided_difference, evaluated at the original abscissa
x_i, are exactly y_i (exact rational arithmetic). -/
theorem claim_C1_interpolation_exact_at_nodes (xs ys : ℕ → ℚ) (n : ℕ) (hn : 2 ≤ n)
    (hxs : ∀ i < n, ∀ j < n, i ≠ j → xs i ≠ xs j) (i : ℕ) (hi : i < n) :
    InterpolationMethods.lagrange_interpolation xs ys n (xs i) = ys i ∧
    (InterpolationMethods.newton_divided_difference xs ys n (xs i)).1 = ys i := by
  constructor
  · exact InterpolationMethods.lagrange_eval_node xs ys n hxs i hi
  · rw [InterpolationMethods.newton_value_eq_npoly xs ys n (by omega) (xs i)]
    have hdist0 : ∀ a b, a ≤ n - 1 → b ≤ n - 1 → a ≠ b → xs (0 + a) ≠ xs (0 + b) := by
      intro a b ha hb hab
      rw [Nat.zero_add, Nat.zero_add]
      exact hxs a (by omega) b (by omega) hab
    have h := InterpolationMethods.npoly_eval_node xs ys (n - 1) 0 hdist0 i (by omega)
    rwa [Nat.zero_add] at h

/-- Witness for C1 at the three points (0,0), (1,1), (2,4) of y = x²,
evaluated at the node x_1 = 1. -/
theorem claim_C1_witness :
    InterpolationMethods.lagrange_interpolation (fun k => (k : ℚ)) (fun k => (k : ℚ) ^ 2) 3
        (((1 : ℕ) : ℚ)) = ((1 : ℕ) : ℚ) ^ 2 ∧
    (InterpolationMethods.newton_divided_difference (fun k => (k : ℚ)) (fun k => (k : ℚ) ^ 2) 3
        (((1 : ℕ) : ℚ))).1 = ((1 : ℕ) : ℚ) ^ 2 :=
  claim_C1_interpolation_exact_at_nodes (fun k => (k : ℚ)) (fun k => (k : ℚ) ^ 2) 3
    (by norm_num) (fun i _ j _ hij h => hij (Nat.cast_injective h)) 1 (by norm_num)

/-- C4: for every sample set with pairwise distinct x-values (n >= 2 as the
spec posits) and every evaluation point x, lagrange_interpolation and the
value returned by newton_divided_difference agree exactly. -/
theorem claim_C4_lagrange_newton_agree (xs ys : ℕ → ℚ) (n : ℕ) (hn : 2 ≤ n)
    (hxs : ∀ i < n, ∀ j < n, i ≠ j → xs i ≠ xs j) (x : ℚ) :
    InterpolationMethods.lagrange_interpolation xs ys n x =
      (InterpolationMethods.newton_divided_difference xs ys n x).1 := by
  rw [InterpolationMethods.newton_value_eq_npoly xs ys n (by omega) x,
    ← InterpolationMethods.lpoly_eq_npoly xs ys n (by omega) hxs,
    InterpolationMethods.lpoly_eval]

/-- Witness for C4 at the points (0,0), (1,1), (2,4) of y = x², evaluated
off the nodes at x = 3/2. -/
theorem claim_C4_witness :
    InterpolationMethods.lagrange_interpolation (fun k => (k : ℚ)) (fun k => (k : ℚ) ^ 2) 3
        (3 / 2) =
    (InterpolationMethods.newton_divided_difference (fun k => (k : ℚ)) (fun k => (k : ℚ) ^ 2) 3
        (3 / 2)).1 :=
  claim_C4_lagrange_newton_agree (fun k => (k : ℚ)) (fun k => (k : ℚ) ^ 2) 3
    (by norm_num) (fun i _ j _ hij h => hij (Nat.cast_injective h)) (3 / 2)

/-- The GUI example function x**2 - 4 used by claim C2. -/
def fDemo (t : ℚ) : ℚ := t ^ 2 - 4

/-- The bisection run of claim C2: f(x) = x²-4 on [0,3], tolerance 1e-6,
max_iter 100, fixed_digits 6. -/
def bisectionDemo : Except PyErr (List NumericalMethods.Rec5) :=
  NumericalMethods.bisection fDemo 0 3 (1 / 1000000) 100 6

/-- The trace of a successful Rec5 run (empty on an error). -/
def traceOf5 (r : Except PyErr (List NumericalMethods.Rec5)) :
    List NumericalMethods.Rec5 :=
  match r with
  | .ok l => l
  | .error _ => []

/-- The last record of a Rec5 trace (zeros if the trace is empty). -/
def lastRec5 (l : List NumericalMethods.Rec5) : NumericalMethods.Rec5 :=
  l.getLast?.getD (0, 0, 0, 0, 0)

/-- Checks that along a bisection trace every bracket width is exactly
half its predecessor and strictly smaller. -/
def bracketHalves : List NumericalMethods.Rec5 → Bool
  | (_, a1, b1, _, _) :: (i2, a2, b2, c2, fc2) :: rest =>
    ((b2 - a2) * 2 == b1 - a1) && decide (b2 - a2 < b1 - a1)
      && bracketHalves ((i2, a2, b2, c2, fc2) :: rest)
  | _ => true

/-- Checks that every recorded bracket still brackets a sign change of f. -/
def bracketSign (f : ℚ → ℚ) (l : List NumericalMethods.Rec5) : Bool :=
  l.all fun r => decide (f r.2.1 * f r.2.2.1 < 0)

/-- C2: the bisection run on f(x)=x²-4, [0,3], tolerance 1e-6 returns
successfully; its final midpoint c satisfies |f(c)| < 1e-6 and is within
1e-6 of 2; every step exactly halves the bracket (so the width strictly
decreases), and every recorded bracket preserves the sign change. -/
theorem claim_C2_bisection_demo :
    bisectionDemo = Except.ok (traceOf5 bisectionDemo) ∧
    traceOf5 bisectionDemo ≠ [] ∧
    |fDemo ((lastRec5 (traceOf5 bisectionDemo)).2.2.2.1)| < 1 / 1000000 ∧
    |(lastRec5 (traceOf5 bisectionDemo)).2.2.2.1 - 2| < 1 / 1000000 ∧
    bracketHalves (traceOf5 bisectionDemo) = true ∧
    bracketSign fDemo (traceOf5 bisectionDemo) = true := by
  decide

/-- C3: the first-degree fit of the points on y = 2x + 1 returns exactly
(a0, a1) = (1, 2), and the second-degree fit of the points on y = x² + 1
returns exactly (a0, a1, a2) = (1, 0, 1). -/
theorem claim_C3_curve_fit_exact :
    CurveFittingCalculator.calculate_first_degree [(0, 1), (1, 3), (2, 5), (3, 7)] = (1, 2) ∧
    CurveFittingCalculator.calculate_second_degree [(-1, 2), (0, 1), (1, 2), (2, 5)] =
      (1, 0, 1) := by
  decide

/-- Counterexample to C5: lagrange_interpolation performs no validation at
all; on the duplicate-abscissa sample set x_0 = x_1 = 1 with y_0 = 0,
y_1 = 5 it returns the numeric value 0 (in floats, inf/nan) instead of
failing with a typed DuplicateAbscissa/InvalidInput error. -/
theorem claim_C5_counterexample :
    InterpolationMethods.lagrange_interpolation (fun _ => 1)
      (fun k => if k = 0 then 0 else 5) 2 0 = 0 := by
  decide

/-- C5 amended: with all abscissae equal (the degenerate duplicate case)
lagrange_interpolation raises nothing and returns the numeric result of
evaluating its sum under the division-by-zero convention, which in ℚ is 0
for every n >= 2, every y-vector and every evaluation point. -/
theorem claim_C5_amended (c t : ℚ) (ys : ℕ → ℚ) (n : ℕ) (hn : 2 ≤ n) :
    InterpolationMethods.lagrange_interpolation (fun _ => c) ys n t = 0 := by
  rw [InterpolationMethods.lagrange_interpolation]
  refine Finset.sum_eq_zero fun i hi => ?_
  have hin : i < n := Finset.mem_range.mp hi
  have hex : ∃ j, j ∈ (Finset.range n).erase i := by
    rcases Nat.eq_zero_or_pos i with h0 | h0
    · exact ⟨1, Finset.mem_erase.mpr ⟨by omega, Finset.mem_range.mpr (by omega)⟩⟩
    · exact ⟨0, Finset.mem_erase.mpr ⟨by omega, Finset.mem_range.mpr (by omega)⟩⟩
  obtain ⟨j, hj⟩ := hex
  rw [Finset.prod_eq_zero hj (show (t - c) / (c - c) = 0 by rw [sub_self, div_zero]),
    mul_zero]

/-- Witness for the amended C5: two points sharing the abscissa 3. -/
theorem claim_C5_amended_witness :
    InterpolationMethods.lagrange_interpolation (fun _ => 3) (fun _ => 7) 2 (5 / 2) = 0 :=
  claim_C5_amended 3 (5 / 2) (fun _ => 7) 2 (le_refl 2)

/-- C6 amended: bisection, secant and simple_iteration each reject
max_iter <= 0 and (failing that) tolerance <= 0 with the corresponding
ValueError before the caller-supplied function can influence anything (the
result is a record-free error constant independent of it), but
NewtonRaphsonSolver.solve performs no such validation: with max_iter <= 0
it fails with the iteration-exhaustion error instead. -/
theorem claim_C6_amended :
    (∀ (f : ℚ → ℚ) (a b tol : ℚ) (maxIter : ℤ) (fd : ℕ), maxIter ≤ 0 →
        NumericalMethods.bisection f a b tol maxIter fd =
          .error (.valueError (NumericalMethods.maxIterMsg))) ∧
    (∀ (f : ℚ → ℚ) (a b tol : ℚ) (maxIter : ℤ) (fd : ℕ), 0 < maxIter → tol ≤ 0 →
        NumericalMethods.bisection f a b tol maxIter fd =
          .error (.valueError (NumericalMethods.toleranceMsg))) ∧
    (∀ (f : ℚ → ℚ) (x0 x1 tol : ℚ) (maxIter : ℤ) (fd : ℕ), maxIter ≤ 0 →
        NumericalMethods.secant f x0 x1 tol maxIter fd =
          .error (.valueError (NumericalMethods.maxIterMsg))) ∧
    (∀ (f : ℚ → ℚ) (x0 x1 tol : ℚ) (maxIter : ℤ) (fd : ℕ), 0 < maxIter → tol ≤ 0 →
        NumericalMethods.secant f x0 x1 tol maxIter fd =
          .error (.valueError (NumericalMethods.toleranceMsg))) ∧
    (∀ (g : ℚ → Except PyErr ℚ) (x0 tol : ℚ) (maxIter : ℤ) (fd : ℕ), maxIter ≤ 0 →
        NumericalMethods.simple_iteration g x0 tol maxIter fd =
          .error (.valueError (NumericalMethods.maxIterMsg))) ∧
    (∀ (g : ℚ → Except PyErr ℚ) (x0 tol : ℚ) (maxIter : ℤ) (fd : ℕ), 0 < maxIter → tol ≤ 0 →
        NumericalMethods.simple_iteration g x0 tol maxIter fd =
          .error (.valueError (NumericalMethods.toleranceMsg))) ∧
    (∀ (f fp : ℚ → Except PyErr ℚ) (x0 tol : ℚ) (maxIter : ℤ), maxIter ≤ 0 →
        NewtonRaphsonSolver.solve f fp x0 tol maxIter =
          .error (.valueError (NewtonRaphsonSolver.nrFailMsg maxIter))) := by
  refine ⟨?_, ?_, ?_, ?_, ?_, ?_, ?_⟩
  · intro f a b tol maxIter fd h
    simp only [NumericalMethods.bisection]
    rw [if_pos h]
  · intro f a b tol maxIter fd h1 h2
    simp only [NumericalMethods.bisection]
    rw [if_neg (not_le.mpr h1), if_pos h2]
  · intro f x0 x1 tol maxIter fd h
    simp only [NumericalMethods.secant]
    rw [if_pos h]
  · intro f x0 x1 tol maxIter fd h1 h2
    simp only [NumericalMethods.secant]
    rw [if_neg (not_le.mpr h1), if_pos h2]
  · intro g x0 tol maxIter fd h
    simp only [NumericalMethods.simple_iteration]
    rw [if_pos h]
  · intro g x0 tol maxIter fd h1 h2
    simp only [NumericalMethods.simple_iteration]
    rw [if_neg (not_le.mpr h1), if_pos h2]
  · intro f fp x0 tol maxIter h
    simp only [NewtonRaphsonSolver.solve]
    rw [Int.toNat_of_nonpos h]
    rfl

/-- Witness for the amended C6, one concrete instantiation per solver and
per rejected parameter. -/
theorem claim_C6_amended_witness :
    NumericalMethods.bisection (fun t => t) 0 1 1 0 6 =
      .error (.valueError (NumericalMethods.maxIterMsg)) ∧
    NumericalMethods.bisection (fun t => t) 0 1 0 5 6 =
      .error (.valueError (NumericalMethods.toleranceMsg)) ∧
    NumericalMethods.secant (fun t => t) 0 1 1 (-2) 6 =
      .error (.valueError (NumericalMethods.maxIterMsg)) ∧
    NumericalMethods.secant (fun t => t) 0 1 (-1) 5 6 =
      .error (.valueError (NumericalMethods.toleranceMsg)) ∧
    NumericalMethods.simple_iteration (fun t => .ok t) 0 1 0 6 =
      .error (.valueError (NumericalMethods.maxIterMsg)) ∧
    NumericalMethods.simple_iteration (fun t => .ok t) 0 (-3) 7 6 =
      .error (.valueError (NumericalMethods.toleranceMsg)) ∧
    NewtonRaphsonSolver.solve (fun t => .ok t) (fun _ => .ok 1) 2 1 (-5) =
      .error (.valueError (NewtonRaphsonSolver.nrFailMsg (-5))) :=
  ⟨claim_C6_amended.1 _ 0 1 1 0 6 (by norm_num),
   claim_C6_amended.2.1 _ 0 1 0 5 6 (by norm_num) (by norm_num),
   claim_C6_amended.2.2.1 _ 0 1 1 (-2) 6 (by norm_num),
   claim_C6_amended.2.2.2.1 _ 0 1 (-1) 5 6 (by norm_num) (by norm_num),
   claim_C6_amended.2.2.2.2.1 _ 0 1 0 6 (by norm_num),
   claim_C6_amended.2.2.2.2.2.1 _ 0 (-3) 7 6 (by norm_num) (by norm_num),
   claim_C6_amended.2.2.2.2.2.2 _ _ 2 1 (-5) (by norm_num)⟩

/-- Counterexample to C6: NewtonRaphsonSolver.solve called with
tolerance = -1 (and max_iter = 1) does not fail with an InvalidInput
error; it evaluates the caller-supplied function (two different functions
give two different outcomes) and ends with the iteration-exhaustion
ValueError, which differs from the validation messages. -/
theorem claim_C6_counterexample :
    NewtonRaphsonSolver.solve (fun t => .ok (t ^ 2 - 4)) (fun t => .ok (2 * t)) 5 (-1) 1 =
      .error (.valueError (NewtonRaphsonSolver.nrFailMsg 1)) ∧
    NewtonRaphsonSolver.solve (fun _ => .error (.otherError ("boom")))
        (fun t => .ok (2 * t)) 5 (-1) 1 =
      .error (.valueError (NewtonRaphsonSolver.wrapMsg 1 ("boom"))) ∧
    NewtonRaphsonSolver.solve (fun t => .ok (t ^ 2 - 4)) (fun t => .ok (2 * t)) 5 (-1) 1 ≠
      NewtonRaphsonSolver.solve (fun _ => .error (.otherError ("boom")))
        (fun t => .ok (2 * t)) 5 (-1) 1 ∧
    PyErr.valueError (NewtonRaphsonSolver.nrFailMsg 1) ≠
      PyErr.valueError (NumericalMethods.toleranceMsg) ∧
    PyErr.valueError (NewtonRaphsonSolver.nrFailMsg 1) ≠
      PyErr.valueError (NumericalMethods.maxIterMsg) := by
  decide

/-- Counterexample to C7: an exception class outside
(ValueError, ZeroDivisionError) raised by the iteration function, here a
TypeError, propagates out of simple_iteration unchanged instead of being
wrapped into the typed evaluation error. -/
theorem claim_C7_counterexample :
    NumericalMethods.simple_iteration (fun _ => .error (.typeError ("bad operand"))) 1
        (1 / 1000000) 100 6 = .error (.typeError ("bad operand")) ∧
    (Except.error (PyErr.typeError ("bad operand")) :
        Except PyErr (List NumericalMethods.Rec3)) ≠
      .error (.valueError (NumericalMethods.iterFuncMsg 1 ("bad operand"))) := by
  decide

/-- C7 amended: when the iteration function raises at the current iterate
x, simple_iteration wraps the exception into the ValueError carrying x and
the cause exactly when the class is ValueError or ZeroDivisionError;
every other class propagates unchanged. -/
theorem claim_C7_amended (g : ℚ → Except PyErr ℚ) (tol : ℚ) (fd : ℕ) (maxIter : ℤ)
    (fuel i : ℕ) (x : ℚ) (acc : List NumericalMethods.Rec3) (e : PyErr)
    (hg : g x = .error e) :
    (NumericalMethods.caughtBySimpleIteration e = true →
      NumericalMethods.simpleLoop g tol fd maxIter (fuel + 1) i x acc =
        .error (.valueError (NumericalMethods.iterFuncMsg x (e.msg)))) ∧
    (NumericalMethods.caughtBySimpleIteration e = false →
      NumericalMethods.simpleLoop g tol fd maxIter (fuel + 1) i x acc = .error e) := by
  constructor <;> intro hc <;> simp [NumericalMethods.simpleLoop, hg, hc]

/-- Witness for the amended C7: a ZeroDivisionError is wrapped with the
failing iterate, an unrelated class is re-raised as itself. -/
theorem claim_C7_amended_witness :
    NumericalMethods.simpleLoop (fun _ => .error (.zeroDivisionError ("float division by zero")))
        (1 / 1000000) 6 100 100 0 (3 / 2) [] =
      .error (.valueError (NumericalMethods.iterFuncMsg (3 / 2) ("float division by zero"))) ∧
    NumericalMethods.simpleLoop (fun _ => .error (.otherError ("overflow")))
        (1 / 1000000) 6 100 100 0 (3 / 2) [] = .error (.otherError ("overflow")) :=
  ⟨(claim_C7_amended (fun _ => .error (.zeroDivisionError ("float division by zero")))
      (1 / 1000000) 6 100 99 0 (3 / 2) []
      (.zeroDivisionError ("float division by zero")) rfl).1 rfl,
   (claim_C7_amended (fun _ => .error (.otherError ("overflow")))
      (1 / 1000000) 6 100 99 0 (3 / 2) []
      (.otherError ("overflow")) rfl).2 rfl⟩

/-- Counterexample to C8: with the 2-cycle map g(x) = -x from x0 = 1, the
x-values of the last four records already collapse to two distinct values
after the 4th record (second conjunct), yet the call does not fail there:
because the source additionally requires the 0-based loop index i > 4, the
Oscillating stop only fires at iteration 6, not at iteration 4. -/
theorem claim_C8_counterexample :
    NumericalMethods.simple_iteration (fun t => .ok (-t)) 1 (1 / 1000000) 100 6 =
      .error (.valueError (NumericalMethods.oscillateMsg 6)) ∧
    NumericalMethods.distinctLastFour [(1, 1, -1), (2, -1, 1), (3, 1, -1), (4, -1, 1)] = 2 ∧
    (Except.error (PyErr.valueError (NumericalMethods.oscillateMsg 6)) :
        Except PyErr (List NumericalMethods.Rec3)) ≠
      .error (.valueError (NumericalMethods.oscillateMsg 4)) := by
  decide

/-- C8 amended: whenever, after a step's record is appended, neither the
convergence nor the divergence test fires, the x-values of the last four
records have at most 2 distinct values, and additionally the 0-based loop
index i exceeds 4 (so from the 6th recorded iteration on), simple
iteration fails with the Oscillating error at that iteration. -/
theorem claim_C8_amended (g : ℚ → Except PyErr ℚ) (tol : ℚ) (fd : ℕ) (maxIter : ℤ)
    (fuel i : ℕ) (x xn : ℚ) (acc : List NumericalMethods.Rec3)
    (hg : g x = .ok xn)
    (hconv : ¬(|xn - x| < tol ∨ |xn - x| / (|xn| + 1 / 10 ^ 10) < 1 / 10 ^ fd))
    (hdiv : ¬(10 ^ 6 < |xn|))
    (hi : 4 < i)
    (hosc : NumericalMethods.distinctLastFour (acc ++ [(i + 1, x, xn)]) ≤ 2) :
    NumericalMethods.simpleLoop g tol fd maxIter (fuel + 1) i x acc =
      .error (.valueError (NumericalMethods.oscillateMsg (i + 1))) := by
  simp only [NumericalMethods.simpleLoop, hg]
  rw [if_neg hconv, if_neg hdiv, if_pos ⟨hi, hosc⟩]

/-- Witness for the amended C8 at the oscillating state the g(x) = -x run
reaches entering its sixth iteration. -/
theorem claim_C8_amended_witness :
    NumericalMethods.simpleLoop (fun t => .ok (-t)) (1 / 1000000) 6 100 95 5 (-1)
        [(1, 1, -1), (2, -1, 1), (3, 1, -1), (4, -1, 1), (5, 1, -1)] =
      .error (.valueError (NumericalMethods.oscillateMsg 6)) :=
  claim_C8_amended (fun t => .ok (-t)) (1 / 1000000) 6 100 94 5 (-1) 1
    [(1, 1, -1), (2, -1, 1), (3, 1, -1), (4, -1, 1), (5, 1, -1)]
    (by decide) (by decide) (by decide) (by decide) (by decide)

/-- On a successful secant run the final record satisfies one of the two
convergence tests: proved by induction on the remaining fuel. -/
theorem secantLoop_ok_last (f : ℚ → ℚ) (tol : ℚ) (fd : ℕ) (maxIter : ℤ) :
    ∀ fuel i x0 x1 acc res,
      NumericalMethods.secantLoop f tol fd maxIter fuel i x0 x1 acc = .ok res →
      ∃ r, res.getLast? = some r ∧
        (|r.2.2.2.2| < tol ∨ |r.2.2.2.1 - r.2.2.1| < 1 / 10 ^ fd) := by
  intro fuel
  induction fuel with
  | zero =>
    intro i x0 x1 acc res h
    simp [NumericalMethods.secantLoop] at h
  | succ fuel ih =>
    intro i x0 x1 acc res h
    simp only [NumericalMethods.secantLoop] at h
    by_cases h1 : |f x1 - f x0| < 1 / 10 ^ 10
    · rw [if_pos h1] at h
      exact absurd h (by simp)
    · rw [if_neg h1] at h
      by_cases h2 : |f x1| < tol
      · rw [if_pos h2] at h
        obtain rfl : acc ++ [(i + 1, x0, x1,
            x1 - f x1 * (x1 - x0) / (f x1 - f x0), f x1)] = res := by
          simpa using h
        exact ⟨_, List.getLast?_concat _, Or.inl h2⟩
      · rw [if_neg h2] at h
        by_cases h3 : |x1 - f x1 * (x1 - x0) / (f x1 - f x0) - x1| < 1 / 10 ^ fd
        · rw [if_pos h3] at h
          obtain rfl : acc ++ [(i + 1, x0, x1,
              x1 - f x1 * (x1 - x0) / (f x1 - f x0), f x1)] = res := by
            simpa using h
          exact ⟨_, List.getLast?_concat _, Or.inr h3⟩
        · rw [if_neg h3] at h
          by_cases h4 : 10 ^ 6 < |x1 - f x1 * (x1 - x0) / (f x1 - f x0)|
          · rw [if_pos h4] at h
            exact absurd h (by simp)
          · rw [if_neg h4] at h
            exact ih _ _ _ _ _ h

/-- C9: a secant step whose denominator satisfies |f(x1)-f(x0)| < 1e-10
fails with the NumericallyUnstable error with no record appended for that
step (first conjunct: the outcome is an error constant, for every
accumulated trace); a step whose computed x_next exceeds 1e6 in magnitude,
the convergence tests not having fired, fails with the Diverging error
(second conjunct); and a secant call returns successfully only if its
final recorded step met one of the two convergence tests (third
conjunct). -/
theorem claim_C9_secant_guards :
    (∀ (f : ℚ → ℚ) (tol : ℚ) (fd : ℕ) (maxIter : ℤ) (fuel i : ℕ) (x0 x1 : ℚ)
        (acc : List NumericalMethods.Rec5),
        |f x1 - f x0| < 1 / 10 ^ 10 →
        NumericalMethods.secantLoop f tol fd maxIter (fuel + 1) i x0 x1 acc =
          .error (.valueError (NumericalMethods.denomMsg (i + 1)))) ∧
    (∀ (f : ℚ → ℚ) (tol : ℚ) (fd : ℕ) (maxIter : ℤ) (fuel i : ℕ) (x0 x1 xn : ℚ)
        (acc : List NumericalMethods.Rec5),
        ¬(|f x1 - f x0| < 1 / 10 ^ 10) →
        xn = x1 - f x1 * (x1 - x0) / (f x1 - f x0) →
        ¬(|f x1| < tol) → ¬(|xn - x1| < 1 / 10 ^ fd) → 10 ^ 6 < |xn| →
        NumericalMethods.secantLoop f tol fd maxIter (fuel + 1) i x0 x1 acc =
          .error (.valueError (NumericalMethods.secantDivergeMsg (i + 1)))) ∧
    (∀ (f : ℚ → ℚ) (x0 x1 tol : ℚ) (maxIter : ℤ) (fd : ℕ)
        (res : List NumericalMethods.Rec5),
        NumericalMethods.secant f x0 x1 tol maxIter fd = .ok res →
        ∃ r, res.getLast? = some r ∧
          (|r.2.2.2.2| < tol ∨ |r.2.2.2.1 - r.2.2.1| < 1 / 10 ^ fd)) := by
  refine ⟨?_, ?_, ?_⟩
  · intro f tol fd maxIter fuel i x0 x1 acc h1
    simp only [NumericalMethods.secantLoop]
    rw [if_pos h1]
  · intro f tol fd maxIter fuel i x0 x1 xn acc h1 hxn h2 h3 h4
    subst hxn
    simp only [NumericalMethods.secantLoop]
    rw [if_neg h1, if_neg h2, if_neg h3, if_pos h4]
  · intro f x0 x1 tol maxIter fd res h
    simp only [NumericalMethods.secant] at h
    by_cases hv1 : maxIter ≤ 0
    · rw [if_pos hv1] at h
      exact absurd h (by simp)
    · rw [if_neg hv1] at h
      by_cases hv2 : tol ≤ 0
      · rw [if_pos hv2] at h
        exact absurd h (by simp)
      · rw [if_neg hv2] at h
        by_cases hv3 : |x1 - x0| < tol
        · rw [if_pos hv3] at h
          exact absurd h (by simp)
        · rw [if_neg hv3] at h
          exact secantLoop_ok_last f tol fd maxIter _ _ _ _ _ _ h

/-- Witness for C9: the denominator guard at f = 0, the divergence guard
on the linear function with root 2·10⁶, and the convergent x²-4 run. -/
theorem claim_C9_witness :
    NumericalMethods.secantLoop (fun _ => 0) 1 6 100 1 0 0 1 [] =
      .error (.valueError (NumericalMethods.denomMsg 1)) ∧
    NumericalMethods.secantLoop (fun t => t - 2000000) 1 6 100 1 0 0 1 [] =
      .error (.valueError (NumericalMethods.secantDivergeMsg 1)) ∧
    (∃ r, (traceOf5 (NumericalMethods.secant fDemo 1 3 (1 / 1000000) 100 6)).getLast? =
        some r ∧
      (|r.2.2.2.2| < 1 / 1000000 ∨ |r.2.2.2.1 - r.2.2.1| < 1 / 10 ^ 6)) :=
  ⟨claim_C9_secant_guards.1 (fun _ => 0) 1 6 100 0 0 0 1 [] (by decide),
   claim_C9_secant_guards.2.1 (fun t => t - 2000000) 1 6 100 0 0 0 1 2000000 []
     (by decide) (by decide) (by decide) (by decide) (by decide),
   claim_C9_secant_guards.2.2 fDemo 1 3 (1 / 1000000) 100 6
     (traceOf5 (NumericalMethods.secant fDemo 1 3 (1 / 1000000) 100 6)) (by decide)⟩

/-- C10: in NewtonRaphsonSolver.solve the divergence stop for
|x_next| > 1e6 is raised inside the per-iteration handler that also wraps
evaluator failures, so it surfaces as the same ValueError with the
"Error in iteration i" wrapping (first conjunct), exactly as an evaluator
exception of any class does (second conjunct); consequently the Diverging
outcome is not distinguishable by error kind from a caller-supplied
evaluator failure whose message is the divergence text (third conjunct). -/
theorem claim_C10_newton_diverging_wrapped :
    (∀ (f fp : ℚ → Except PyErr ℚ) (tol : ℚ) (maxIter : ℤ) (fuel i : ℕ) (x : ℚ)
        (acc : List NewtonRaphsonSolver.Rec4) (fx dfx0 dfx xn : ℚ),
        f x = .ok fx → fp x = .ok dfx0 →
        ¬(|dfx0| < 1 / 10 ^ 10 ∧ |fx| < tol) →
        dfx = (if |dfx0| < 1 / 10 ^ 10 then
            (if dfx0 ≠ 0 then dfx0 + NewtonRaphsonSolver.sign dfx0 * (1 / 10 ^ 10)
             else 1 / 10 ^ 10)
          else dfx0) →
        xn = x - fx / dfx →
        ¬(|fx| < tol ∨ |xn - x| < tol) →
        10 ^ 6 < |xn| →
        NewtonRaphsonSolver.solveLoop f fp tol maxIter (fuel + 1) i x acc =
          .error (.valueError (NewtonRaphsonSolver.wrapMsg (i + 1)
            (NewtonRaphsonSolver.divergingMsg)))) ∧
    (∀ (f fp : ℚ → Except PyErr ℚ) (tol : ℚ) (maxIter : ℤ) (fuel i : ℕ) (x : ℚ)
        (acc : List NewtonRaphsonSolver.Rec4) (e : PyErr),
        f x = .error e →
        NewtonRaphsonSolver.solveLoop f fp tol maxIter (fuel + 1) i x acc =
          .error (.valueError (NewtonRaphsonSolver.wrapMsg (i + 1) (e.msg)))) ∧
    (∀ i : ℕ, ∃ e : PyErr,
        PyErr.valueError (NewtonRaphsonSolver.wrapMsg (i + 1)
            (NewtonRaphsonSolver.divergingMsg)) =
          PyErr.valueError (NewtonRaphsonSolver.wrapMsg (i + 1) (e.msg))) := by
  refine ⟨?_, ?_, ?_⟩
  · intro f fp tol maxIter fuel i x acc fx dfx0 dfx xn hf hfp h1 hdfx hxn hconv hdiv
    subst hdfx
    subst hxn
    simp only [NewtonRaphsonSolver.solveLoop, hf, hfp]
    rw [if_neg h1, if_neg hconv, if_pos hdiv]
  · intro f fp tol maxIter fuel i x acc e hf
    simp [NewtonRaphsonSolver.solveLoop, hf]
  · intro i
    exact ⟨.otherError (NewtonRaphsonSolver.divergingMsg), rfl⟩

/-- Witness for C10: a diverging Newton step and an evaluator TypeError
produce the same shape of wrapped ValueError at iteration 1. -/
theorem claim_C10_witness :
    NewtonRaphsonSolver.solveLoop (fun t => .ok (t + 2000000)) (fun _ => .ok 1) 1 100 1 0 0 [] =
      .error (.valueError (NewtonRaphsonSolver.wrapMsg 1 (NewtonRaphsonSolver.divergingMsg))) ∧
    NewtonRaphsonSolver.solveLoop (fun _ => .error (.typeError ("boom"))) (fun _ => .ok 1)
        1 100 1 0 0 [] =
      .error (.valueError (NewtonRaphsonSolver.wrapMsg 1 ("boom"))) :=
  ⟨claim_C10_newton_diverging_wrapped.1 (fun t => .ok (t + 2000000)) (fun _ => .ok 1)
      1 100 0 0 0 [] 2000000 1 1 (-2000000)
      (by decide) (by decide) (by decide) (by decide) (by decide) (by decide) (by decide),
   claim_C10_newton_diverging_wrapped.2.1 (fun _ => .error (.typeError ("boom")))
      (fun _ => .ok 1) 1 100 0 0 0 [] (.typeError ("boom")) rfl⟩
